import Mathlib

/-!
Verification of the token-cache management core of an OAuth2/OIDC client
library (package `tokencache`, file `cache_manager.go`).

Shallow embedding conventions:
* Go `string` is Lean `String`; Go `[]string` is `List String`.
* Go `int64` timestamps are Lean `Int`; `time.Now().Unix()` is modelled as an
  explicit `now : Int` parameter threaded to every function that reads the
  clock.
* A Go string field that is expected to hold a decimal integer (the
  `CachedAt` / `ExpiresOnUnixTimestamp` fields, read back through
  `strconv.ParseInt`) is modelled by `TimeString`: either a numeric string
  carrying the integer it denotes, or a malformed string on which
  `strconv.ParseInt` errors.
* A Go `error` return is `Option String` (`none` = nil error); a Go
  `(value, error)` pair where exactly one side is meaningful is
  `Except String value`.
* The storage port (`IStorageManager`, an external collaborator) is a record
  of pure response functions, and every cache-manager operation additionally
  returns the ordered list of storage-port calls it performed
  (`List StorageCall`), so that "performs zero storage accesses" and
  "earlier writes are not rolled back" are statable.
* Go methods mutate `*msalbase.AuthParametersInternal` through a pointer;
  each operation therefore also returns the post-call value of that record.
-/

/-- Model of a Go string field expected to contain a decimal `int64`:
`num n` is a numeric string that `strconv.ParseInt` parses to `n`,
`malformed` is any string on which `strconv.ParseInt` returns an error. -/
inductive TimeString where
  | num (n : Int)
  | malformed
deriving DecidableEq

/-- Model of `strconv.ParseInt(s, 10, 64)` on a `TimeString`. -/
def parseInt : TimeString → Option Int
  | .num n => some n
  | .malformed => none

/-- Cache record for an access token (`accessTokenCacheItem`).  The two
timestamp fields are stored as strings in the source and parsed on read. -/
structure accessTokenCacheItem where
  HomeaccountID : String
  Environment : String
  Realm : String
  ClientID : String
  CachedAt : TimeString
  ExpiresOnUnixTimestamp : TimeString
  ExtendedExpiresOnUnixTimestamp : TimeString
  Target : String
  Secret : String
deriving DecidableEq

/-- Cache record for a refresh token (`refreshTokenCacheItem`). -/
structure refreshTokenCacheItem where
  HomeaccountID : String
  Environment : String
  ClientID : String
  Secret : String
  FamilyID : String
deriving DecidableEq

/-- Cache record for an ID token (`idTokenCacheItem`). -/
structure idTokenCacheItem where
  HomeaccountID : String
  Environment : String
  Realm : String
  ClientID : String
  RawToken : String
deriving DecidableEq

/-- Account record (`msalbase.Account`). -/
structure Account where
  HomeaccountID : String
  Environment : String
  Realm : String
  LocalAccountID : String
  AuthorityType : String
  PreferredUsername : String
deriving DecidableEq

/-- App-metadata record (`AppMetadata`): maps a client id to its family id. -/
structure AppMetadata where
  FamilyID : String
  ClientID : String
  Environment : String
deriving DecidableEq

/-- Aggregate returned by the read path (`msalbase.StorageTokenResponse`). -/
structure StorageTokenResponse where
  accessToken : Option accessTokenCacheItem
  refreshToken : Option refreshTokenCacheItem
  idToken : Option idTokenCacheItem
  account : Option Account
deriving DecidableEq

/-- Modelled from the spec: `msalbase.CreateStorageTokenResponse` (not under
src/) packs the four entity reads into the aggregate. -/
def CreateStorageTokenResponse (accessToken : Option accessTokenCacheItem)
    (refreshToken : Option refreshTokenCacheItem)
    (idToken : Option idTokenCacheItem) (account : Option Account) :
    StorageTokenResponse :=
  ⟨accessToken, refreshToken, idToken, account⟩

/-- Modelled from the spec: `CreateAccessTokenCacheItem` (not under src/)
builds the record from the request keys and the response timestamps; the
`int64` timestamps are stored as their decimal string representations, which
parse back to the same integers. -/
def CreateAccessTokenCacheItem (homeAccountID environment realm clientID : String)
    (cachedAt expiresOn extendedExpiresOn : Int) (target secret : String) :
    accessTokenCacheItem :=
  ⟨homeAccountID, environment, realm, clientID, .num cachedAt, .num expiresOn,
   .num extendedExpiresOn, target, secret⟩

/-- Modelled from the spec: `CreateRefreshTokenCacheItem` (not under src/). -/
def CreateRefreshTokenCacheItem (homeAccountID environment clientID refreshToken familyID : String) :
    refreshTokenCacheItem :=
  ⟨homeAccountID, environment, clientID, refreshToken, familyID⟩

/-- Modelled from the spec: `CreateIDTokenCacheItem` (not under src/). -/
def CreateIDTokenCacheItem (homeAccountID environment realm clientID rawToken : String) :
    idTokenCacheItem :=
  ⟨homeAccountID, environment, realm, clientID, rawToken⟩

/-- Modelled from the spec: `msalbase.CreateAccount` (not under src/). -/
def CreateAccount (homeAccountID environment realm localAccountID authorityType preferredUsername : String) :
    Account :=
  ⟨homeAccountID, environment, realm, localAccountID, authorityType, preferredUsername⟩

/-- Modelled from the spec: `CreateAppMetadata` (not under src/). -/
def CreateAppMetadata (familyID clientID environment : String) : AppMetadata :=
  ⟨familyID, clientID, environment⟩

/-- Authority information carried by the request
(`msalbase.AuthorityInfo`); only the fields read by the cache manager are
modelled. -/
structure AuthorityInfo where
  Host : String
  UserRealmURIPrefix : String
  AuthorityType : String
deriving DecidableEq

/-- Request parameters (`msalbase.AuthParametersInternal`). -/
structure AuthParametersInternal where
  HomeaccountID : String
  AuthorityInfo : AuthorityInfo
  ClientID : String
  Scopes : List String
  Username : String
  Password : String
deriving DecidableEq

/-- ID-token claims (`msalbase.IDToken`): the raw JWT plus the two claims the
cache manager derives from it. -/
structure IDTokenJwt where
  RawToken : String
  LocalAccountID : String
  PreferredUsername : String
deriving DecidableEq

/-- Modelled from the spec: `IDToken.GetLocalAccountID` (not under src/)
returns the local-account-id claim. -/
def IDTokenJwt.GetLocalAccountID (idTokenJwt : IDTokenJwt) : String :=
  idTokenJwt.LocalAccountID

/-- Token-issuance response (`msalbase.TokenResponse`); only the fields the
cache manager reads are modelled. -/
structure TokenResponse where
  HomeAccountIDFromClientInfo : String
  AccessToken : String
  RefreshToken : String
  IDToken : IDTokenJwt
  FamilyID : String
  GrantedScopes : List String
  ExpiresOn : Int
  ExtExpiresOn : Int
deriving DecidableEq

/-- Modelled from the spec: `TokenResponse.GetHomeAccountIDFromClientInfo`
(not under src/) derives the home-account id from the response's client
info. -/
def TokenResponse.GetHomeAccountIDFromClientInfo (tokenResponse : TokenResponse) : String :=
  tokenResponse.HomeAccountIDFromClientInfo

/-- Modelled from the spec: `TokenResponse.HasRefreshToken` (not under src/):
the response carries a refresh token when the secret is non-empty. -/
def TokenResponse.HasRefreshToken (tokenResponse : TokenResponse) : Bool :=
  tokenResponse.RefreshToken ≠ ""

/-- Modelled from the spec: `TokenResponse.HasAccessToken` (not under src/):
the response carries an access token when the secret is non-empty. -/
def TokenResponse.HasAccessToken (tokenResponse : TokenResponse) : Bool :=
  tokenResponse.AccessToken ≠ ""

/-- Modelled from the spec: `msalbase.ConcatenateScopes` (not under src/)
serializes the granted scope set as a single space-joined string. -/
def ConcatenateScopes (scopes : List String) : String :=
  String.intercalate " " scopes

/-- Credential types used by the deletion filter
(`msalbase.CredentialType`). -/
inductive CredentialType where
  | oauth2RefreshToken
  | oauth2AccessToken
deriving DecidableEq

/-- Status code of a deletion call (`OperationStatusType`). -/
inductive OperationStatusType where
  | success
  | failure
deriving DecidableEq

/-- Result of a storage-port deletion (`OperationStatus`). -/
structure OperationStatus where
  StatusType : OperationStatusType
deriving DecidableEq

/-- Alias-set entry returned by the authority alias resolver
(`requests.InstanceDiscoveryMetadata`); only the alias list is read. -/
structure MetadataEntry where
  Aliases : List String
deriving DecidableEq

/-- One call to the storage port, recorded in the order the cache manager
issues it. -/
inductive StorageCall where
  | readAccessToken (homeAccountID : String) (aliases : List String)
      (realm clientID : String) (scopes : List String)
  | readIDToken (homeAccountID : String) (aliases : List String) (realm clientID : String)
  | readAppMetadata (aliases : List String) (clientID : String)
  | readRefreshToken (homeAccountID : String) (aliases : List String) (familyID clientID : String)
  | readAccount (homeAccountID : String) (aliases : List String) (realm : String)
  | writeRefreshToken (item : refreshTokenCacheItem)
  | writeAccessToken (item : accessTokenCacheItem)
  | writeIDToken (item : idTokenCacheItem)
  | writeAccount (item : Account)
  | writeAppMetadata (item : AppMetadata)
  | deleteCredentials (correlationID homeAccountID environment realm clientID familyID target : String)
      (credentialTypes : List CredentialType)
deriving DecidableEq

/-- The storage port (`IStorageManager`), an external collaborator consumed
through a narrow interface: a record of pure response functions.  Writes
return `none` on success and `some msg` on error; `DeleteCredentials`
returns either an error or an `OperationStatus`. -/
structure IStorageManager where
  ReadAccessToken : String → List String → String → String → List String → Option accessTokenCacheItem
  ReadRefreshToken : String → List String → String → String → Option refreshTokenCacheItem
  ReadIDToken : String → List String → String → String → Option idTokenCacheItem
  ReadAccount : String → List String → String → Option Account
  ReadAppMetadata : List String → String → Option AppMetadata
  WriteAccessToken : accessTokenCacheItem → Option String
  WriteRefreshToken : refreshTokenCacheItem → Option String
  WriteIDToken : idTokenCacheItem → Option String
  WriteAccount : Account → Option String
  WriteAppMetadata : AppMetadata → Option String
  DeleteCredentials : String → String → String → String → String → String → String →
    List CredentialType → Except String OperationStatus

/-- The validity evaluator (`isAccessTokenValid`, cache_manager.go lines
27-48): parse cached-at, reject a parse failure or a cached-at in the
future, parse expires-on, reject a parse failure or an expiry at or below
`now + 300`.  The source's `time.Now().Unix()` is the parameter `now`. -/
def isAccessTokenValid (now : Int) (accessToken : accessTokenCacheItem) : Bool :=
  match parseInt accessToken.CachedAt with
  | none => false
  | some cachedAt =>
    if cachedAt > now then false
    else
      match parseInt accessToken.ExpiresOnUnixTimestamp with
      | none => false
      | some expiresOn =>
        if expiresOn ≤ now + 300 then false
        else true

/-- A storage port for concrete runs: every read finds nothing, every write
succeeds, and deletion reports success. -/
def emptyStorage : IStorageManager where
  ReadAccessToken _ _ _ _ _ := none
  ReadRefreshToken _ _ _ _ := none
  ReadIDToken _ _ _ _ := none
  ReadAccount _ _ _ := none
  ReadAppMetadata _ _ := none
  WriteAccessToken _ := none
  WriteRefreshToken _ := none
  WriteIDToken _ := none
  WriteAccount _ := none
  WriteAppMetadata _ := none
  DeleteCredentials _ _ _ _ _ _ _ _ := .ok ⟨.success⟩

/-- The read path (`TryReadCache`, cache_manager.go lines 54-86).  The
authority alias resolver (`aadInstanceDiscovery.GetMetadataEntry`, an
external collaborator built from the web-request manager) is the parameter
`getMetadataEntry`.  Returns the Go result, the ordered storage-port calls
performed, and the post-call request parameters (the source never assigns
through the pointer on this path). -/
def TryReadCache (m : IStorageManager)
    (getMetadataEntry : AuthorityInfo → Except String MetadataEntry)
    (authParameters : AuthParametersInternal) (now : Int) :
    Except String StorageTokenResponse × List StorageCall × AuthParametersInternal :=
  let homeAccountID := authParameters.HomeaccountID
  let realm := authParameters.AuthorityInfo.UserRealmURIPrefix
  let clientID := authParameters.ClientID
  let scopes := authParameters.Scopes
  match getMetadataEntry authParameters.AuthorityInfo with
  | .error e => (.error e, [], authParameters)
  | .ok metadata =>
    if homeAccountID = "" ∨ metadata.Aliases.length = 0 ∨ realm = "" ∨ clientID = "" ∨ scopes.length = 0 then
      (.error "Skipping the tokens cache lookup, one of the primary keys is empty", [], authParameters)
    else
      let accessTokenRead := m.ReadAccessToken homeAccountID metadata.Aliases realm clientID scopes
      let accessToken :=
        match accessTokenRead with
        | some tok => if isAccessTokenValid now tok then some tok else none
        | none => none
      let idToken := m.ReadIDToken homeAccountID metadata.Aliases realm clientID
      let appMetadata := m.ReadAppMetadata metadata.Aliases clientID
      let familyID :=
        match appMetadata with
        | none => ""
        | some md => md.FamilyID
      let refreshToken := m.ReadRefreshToken homeAccountID metadata.Aliases familyID clientID
      let account := m.ReadAccount homeAccountID metadata.Aliases realm
      (.ok (CreateStorageTokenResponse accessToken refreshToken idToken account),
       [.readAccessToken homeAccountID metadata.Aliases realm clientID scopes,
        .readIDToken homeAccountID metadata.Aliases realm clientID,
        .readAppMetadata metadata.Aliases clientID,
        .readRefreshToken homeAccountID metadata.Aliases familyID clientID,
        .readAccount homeAccountID metadata.Aliases realm],
       authParameters)

/-- The write path (`CacheTokenResponse`, cache_manager.go lines 88-170).
The source first assigns `authParameters.HomeaccountID` through the pointer,
then checks the primary keys, then writes each entity in order, returning on
the first write error — except that the `WriteIDToken` return value is
dropped on the floor at line 137 (the `if err != nil` that follows it
re-tests a variable that is necessarily nil there, because every earlier
failing write already returned).  `time.Now().Unix()` is the parameter
`now`.  Returns the Go result, the ordered storage-port calls performed,
and the post-call request parameters. -/
def CacheTokenResponse (m : IStorageManager) (authParameters : AuthParametersInternal)
    (tokenResponse : TokenResponse) (now : Int) :
    Except String Account × List StorageCall × AuthParametersInternal :=
  let authParameters :=
    { authParameters with HomeaccountID := tokenResponse.GetHomeAccountIDFromClientInfo }
  let homeAccountID := authParameters.HomeaccountID
  let environment := authParameters.AuthorityInfo.Host
  let realm := authParameters.AuthorityInfo.UserRealmURIPrefix
  let clientID := authParameters.ClientID
  let target := ConcatenateScopes tokenResponse.GrantedScopes
  if homeAccountID = "" ∨ environment = "" ∨ realm = "" ∨ clientID = "" ∨ target = "" then
    (.error "Skipping writing data to the tokens cache, one of the primary keys is empty",
     [], authParameters)
  else
    let cachedAt := now
    let refreshStep : List StorageCall × Option String :=
      if tokenResponse.HasRefreshToken then
        let refreshToken := CreateRefreshTokenCacheItem homeAccountID environment clientID
          tokenResponse.RefreshToken tokenResponse.FamilyID
        ([.writeRefreshToken refreshToken], m.WriteRefreshToken refreshToken)
      else ([], none)
    match refreshStep with
    | (trace1, some e) => (.error e, trace1, authParameters)
    | (trace1, none) =>
      let accessStep : List StorageCall × Option String :=
        if tokenResponse.HasAccessToken then
          let expiresOn := tokenResponse.ExpiresOn
          let extendedExpiresOn := tokenResponse.ExtExpiresOn
          let accessToken := CreateAccessTokenCacheItem homeAccountID environment realm clientID
            cachedAt expiresOn extendedExpiresOn target tokenResponse.AccessToken
          if isAccessTokenValid now accessToken then
            ([.writeAccessToken accessToken], m.WriteAccessToken accessToken)
          else ([], none)
        else ([], none)
      match accessStep with
      | (trace2, some e) => (.error e, trace1 ++ trace2, authParameters)
      | (trace2, none) =>
        let idTokenJwt := tokenResponse.IDToken
        let idToken := CreateIDTokenCacheItem homeAccountID environment realm clientID
          idTokenJwt.RawToken
        let _ := m.WriteIDToken idToken
        let localAccountID := idTokenJwt.GetLocalAccountID
        let authorityType := authParameters.AuthorityInfo.AuthorityType
        let account := CreateAccount homeAccountID environment realm localAccountID
          authorityType idTokenJwt.PreferredUsername
        match m.WriteAccount account with
        | some e =>
          (.error e, trace1 ++ trace2 ++ [.writeIDToken idToken, .writeAccount account],
           authParameters)
        | none =>
          let appMetadata := CreateAppMetadata tokenResponse.FamilyID clientID environment
          match m.WriteAppMetadata appMetadata with
          | some e =>
            (.error e,
             trace1 ++ trace2 ++
               [.writeIDToken idToken, .writeAccount account, .writeAppMetadata appMetadata],
             authParameters)
          | none =>
            (.ok account,
             trace1 ++ trace2 ++
               [.writeIDToken idToken, .writeAccount account, .writeAppMetadata appMetadata],
             authParameters)

/-- Refresh-token deletion (`DeleteCachedRefreshToken`, cache_manager.go
lines 172-199).  The source hard-codes `homeAccountID := ""` (with a todo
comment pointing at `authParameters.GetAccountId()`) and `environment :=
""`, then checks those very variables for emptiness; a storage-port error
is swallowed (`return nil`) and a failure status only logged. -/
def DeleteCachedRefreshToken (m : IStorageManager)
    (authParameters : AuthParametersInternal) :
    Option String × List StorageCall × AuthParametersInternal :=
  let homeAccountID := ""
  let environment := ""
  let clientID := authParameters.ClientID
  let emptyCorrelationID := ""
  let emptyRealm := ""
  let emptyFamilyID := ""
  let emptyTarget := ""
  if homeAccountID = "" ∨ environment = "" ∨ clientID = "" then
    (some "Failed to delete refresh token from the cache, one of the primary keys is empty",
     [], authParameters)
  else
    match m.DeleteCredentials emptyCorrelationID homeAccountID environment emptyRealm clientID
        emptyFamilyID emptyTarget [CredentialType.oauth2RefreshToken] with
    | .error _ =>
      (none,
       [.deleteCredentials emptyCorrelationID homeAccountID environment emptyRealm clientID
          emptyFamilyID emptyTarget [CredentialType.oauth2RefreshToken]],
       authParameters)
    | .ok _ =>
      (none,
       [.deleteCredentials emptyCorrelationID homeAccountID environment emptyRealm clientID
          emptyFamilyID emptyTarget [CredentialType.oauth2RefreshToken]],
       authParameters)

/-- Access-token deletion (`deleteCachedAccessToken`, cache_manager.go lines
201-217): no emptiness check of any key; one `DeleteCredentials` call
filtered to access tokens; a storage error propagates, a failure status is
only logged. -/
def deleteCachedAccessToken (m : IStorageManager)
    (homeAccountID environment realm clientID target : String) :
    Option String × List StorageCall :=
  let emptyCorrelationID := ""
  let emptyFamilyID := ""
  match m.DeleteCredentials emptyCorrelationID homeAccountID environment realm clientID
      emptyFamilyID target [CredentialType.oauth2AccessToken] with
  | .error e =>
    (some e,
     [.deleteCredentials emptyCorrelationID homeAccountID environment realm clientID
        emptyFamilyID target [CredentialType.oauth2AccessToken]])
  | .ok _ =>
    (none,
     [.deleteCredentials emptyCorrelationID homeAccountID environment realm clientID
        emptyFamilyID target [CredentialType.oauth2AccessToken]])

/-- A storage port whose ID-token write fails while every other operation
succeeds; exercises the dropped `WriteIDToken` return value. -/
def idTokenFailStorage : IStorageManager :=
  { emptyStorage with WriteIDToken := fun _ => some "id token write failed" }

/-- A concrete authority: host `env`, realm `realm`. -/
def sampleAuthorityInfo : AuthorityInfo := ⟨"env", "realm", "MSSTS"⟩

/-- Concrete request parameters for client `A`, user `h`, one scope. -/
def sampleAuthParameters : AuthParametersInternal :=
  ⟨"h", sampleAuthorityInfo, "A", ["s1"], "", ""⟩

/-- A concrete alias resolver that always resolves to the single alias
`env`. -/
def sampleResolver : AuthorityInfo → Except String MetadataEntry :=
  fun _ => .ok ⟨["env"]⟩

/-- Concrete ID-token claims. -/
def sampleIDTokenJwt : IDTokenJwt := ⟨"raw", "local", "user"⟩

/-- A concrete token response carrying neither a refresh token nor an access
token. -/
def sampleTokenResponse : TokenResponse :=
  ⟨"h", "", "", sampleIDTokenJwt, "", ["s1"], 0, 0⟩

/-- A concrete token response carrying an access token that expires at 1000
(valid at now = 0, expired at now = 2000 under the 300-second buffer). -/
def accessTokenResponse : TokenResponse :=
  ⟨"h", "at-secret", "", sampleIDTokenJwt, "", ["s1"], 1000, 1000⟩

/-- An access token cached at 0 and expiring at 100: stale at now = 1000. -/
def expiredToken : accessTokenCacheItem :=
  ⟨"h", "env", "realm", "A", .num 0, .num 100, .num 100, "s1", "sec"⟩

/-- A storage port whose access-token read finds `expiredToken`. -/
def expiredTokenStorage : IStorageManager :=
  { emptyStorage with ReadAccessToken := fun _ _ _ _ _ => some expiredToken }

/-- The refresh token written by sibling client `B` under family `F`. -/
def familyRefreshToken : refreshTokenCacheItem := ⟨"h", "env", "B", "rt-secret", "F"⟩

/-- Modelled from the spec: a populated storage port exercising family-id
precedence.  Its app metadata maps client `A` to family `F`; its stored
refresh token was written under family `F` by sibling client `B`; its
refresh-token lookup matches on the family id and ignores the requesting
client id, because a refresh token with a family id is shared across all
client ids registered in that family (the storage manager's lookup code is
not under src/). -/
def familyStorage : IStorageManager :=
  { emptyStorage with
    ReadAppMetadata := fun aliases clientID =>
      if clientID = "A" ∧ aliases = ["env"] then some ⟨"F", "A", "env"⟩ else none,
    ReadRefreshToken := fun homeAccountID aliases familyID _clientID =>
      if homeAccountID = "h" ∧ aliases = ["env"] ∧ familyID = "F" then some familyRefreshToken
      else none }

/-- CLAIM C1: an access-token cache item is judged valid by
`isAccessTokenValid` iff both timestamp fields parse as integers, the parsed
cached-at is at most `now`, and the parsed expires-on is strictly greater
than `now + 300`; any parse failure or future cached-at makes it invalid
(so expires-on = now + 300 is invalid and now + 301 is valid). -/
theorem isAccessTokenValid_iff (now : Int) (a : accessTokenCacheItem) :
    isAccessTokenValid now a = true ↔
      (∃ cachedAt, parseInt a.CachedAt = some cachedAt ∧ cachedAt ≤ now) ∧
      (∃ expiresOn, parseInt a.ExpiresOnUnixTimestamp = some expiresOn ∧ now + 300 < expiresOn) := by
  unfold isAccessTokenValid
  cases hc : parseInt a.CachedAt with
  | none => simp [hc]
  | some cachedAt =>
    cases he : parseInt a.ExpiresOnUnixTimestamp with
    | none =>
      simp only [he]
      constructor
      · intro h
        by_cases hgt : cachedAt > now <;> simp [hgt] at h
      · rintro ⟨_, ⟨e, he2, _⟩⟩
        simp at he2
    | some expiresOn =>
      by_cases hgt : cachedAt > now
      · simp only [if_pos hgt]
        constructor
        · intro h; exact absurd h (by simp)
        · rintro ⟨⟨c, hc2, hle⟩, _⟩
          cases hc2
          omega
      · by_cases hexp : expiresOn ≤ now + 300
        · simp only [if_neg hgt, he, if_pos hexp]
          constructor
          · intro h; exact absurd h (by simp)
          · rintro ⟨_, ⟨e, he2, hlt⟩⟩
            cases he2
            omega
        · simp only [if_neg hgt, he, if_neg hexp]
          constructor
          · intro _
            exact ⟨⟨cachedAt, rfl, by omega⟩, ⟨expiresOn, rfl, by omega⟩⟩
          · intro _; trivial

/-- Witness for C1: a concrete token cached at time 0 and expiring at 302 is
valid at now = 1 (expires-on = now + 301), by the iff. -/
theorem isAccessTokenValid_iff_witness :
    isAccessTokenValid 1 ⟨"h", "e", "r", "c", .num 0, .num 302, .num 302, "t", "s"⟩ = true :=
  (isAccessTokenValid_iff 1 _).mpr ⟨⟨0, rfl, by decide⟩, ⟨302, rfl, by decide⟩⟩


/-- CLAIM C6: for every storage port and every request parameters value,
`DeleteCachedRefreshToken` returns the missing-cache-key error and performs
no storage-port call, because the home-account id and environment it checks
are the local variables hard-coded to the empty string, not values taken
from the request parameters. -/
theorem DeleteCachedRefreshToken_always_missing_key
    (m : IStorageManager) (ap : AuthParametersInternal) :
    DeleteCachedRefreshToken m ap =
      (some "Failed to delete refresh token from the cache, one of the primary keys is empty",
       [], ap) := by
  rfl

/-- CLAIM C5 (failing-input evaluation): already the first
`DeleteCachedRefreshToken` call, on fully populated request parameters and a
storage port whose deletion succeeds, returns an error (the missing-key
message) and performs no storage call — contradicting the claim that both
of two successive calls return success to the caller. -/
theorem DeleteCachedRefreshToken_first_call_errors :
    (DeleteCachedRefreshToken emptyStorage sampleAuthParameters).1 =
      some "Failed to delete refresh token from the cache, one of the primary keys is empty" ∧
    (DeleteCachedRefreshToken emptyStorage sampleAuthParameters).2.1 = [] := by
  constructor <;> rfl

/-- CLAIM C7 (counterexample): `deleteCachedAccessToken` called with every
key empty does not fail with a missing-cache-key condition — it returns
success — and it does call the storage port (one `DeleteCredentials` call),
refuting the claim that empty keys are rejected before any storage
access. -/
theorem deleteCachedAccessToken_empty_keys_not_rejected :
    (deleteCachedAccessToken emptyStorage "" "" "" "" "").1 = none ∧
    (deleteCachedAccessToken emptyStorage "" "" "" "" "").2 =
      [.deleteCredentials "" "" "" "" "" "" "" [CredentialType.oauth2AccessToken]] := by
  constructor <;> rfl

/-- CLAIM C7 (amended): `deleteCachedAccessToken` performs no emptiness
check on any of its keys; for every input, empty or not, it issues exactly
one `DeleteCredentials` call filtered to access tokens, propagates a
storage-port error, and otherwise returns success (a reported failure
status is only logged). -/
theorem deleteCachedAccessToken_unconditional (m : IStorageManager)
    (homeAccountID environment realm clientID target : String) :
    deleteCachedAccessToken m homeAccountID environment realm clientID target =
      ((match m.DeleteCredentials "" homeAccountID environment realm clientID "" target
          [CredentialType.oauth2AccessToken] with
        | .error e => some e
        | .ok _ => none),
       [.deleteCredentials "" homeAccountID environment realm clientID "" target
          [CredentialType.oauth2AccessToken]]) := by
  unfold deleteCachedAccessToken
  dsimp only
  cases m.DeleteCredentials "" homeAccountID environment realm clientID "" target
      [CredentialType.oauth2AccessToken] <;> rfl

/-- CLAIM C10: `CacheTokenResponse` overwrites the caller's
`HomeaccountID` with the home-account id derived from the token response's
client info before any precondition check, the overwrite persists in every
outcome (including the missing-cache-key failure), and no other field of
the request parameters is modified by any cache-manager operation
(`TryReadCache` and `DeleteCachedRefreshToken` leave the record
untouched). -/
theorem cacheManager_params_frame (m : IStorageManager)
    (gme : AuthorityInfo → Except String MetadataEntry)
    (ap : AuthParametersInternal) (tokenResponse : TokenResponse) (now : Int) :
    (CacheTokenResponse m ap tokenResponse now).2.2 =
      { ap with HomeaccountID := tokenResponse.GetHomeAccountIDFromClientInfo } ∧
    (TryReadCache m gme ap now).2.2 = ap ∧
    (DeleteCachedRefreshToken m ap).2.2 = ap := by
  refine ⟨?_, ?_, rfl⟩
  · unfold CacheTokenResponse
    dsimp only
    repeat' split
    all_goals rfl
  · unfold TryReadCache
    dsimp only
    repeat' split
    all_goals rfl

/-- CLAIM C3: whenever one of the required primary keys is empty — for the
read path the home-account id, resolved alias set, realm, client id, or
requested scope set; for the write path the derived home-account id,
environment, realm, client id, or concatenated granted-scope string —
`TryReadCache` (given a successful alias resolution) and
`CacheTokenResponse` each fail with the missing-cache-key error and perform
zero storage-port calls. -/
theorem missing_key_guard :
    (∀ (m : IStorageManager) (gme : AuthorityInfo → Except String MetadataEntry)
       (ap : AuthParametersInternal) (now : Int) (md : MetadataEntry),
       gme ap.AuthorityInfo = Except.ok md →
       (ap.HomeaccountID = "" ∨ md.Aliases.length = 0 ∨
        ap.AuthorityInfo.UserRealmURIPrefix = "" ∨ ap.ClientID = "" ∨
        ap.Scopes.length = 0) →
       TryReadCache m gme ap now =
         (.error "Skipping the tokens cache lookup, one of the primary keys is empty",
          [], ap)) ∧
    (∀ (m : IStorageManager) (ap : AuthParametersInternal)
       (tokenResponse : TokenResponse) (now : Int),
       (tokenResponse.GetHomeAccountIDFromClientInfo = "" ∨
        ap.AuthorityInfo.Host = "" ∨ ap.AuthorityInfo.UserRealmURIPrefix = "" ∨
        ap.ClientID = "" ∨ ConcatenateScopes tokenResponse.GrantedScopes = "") →
       CacheTokenResponse m ap tokenResponse now =
         (.error "Skipping writing data to the tokens cache, one of the primary keys is empty",
          [], { ap with HomeaccountID := tokenResponse.GetHomeAccountIDFromClientInfo })) := by
  constructor
  · intro m gme ap now md hmd hempty
    unfold TryReadCache
    rw [hmd]
    dsimp only
    rw [if_pos hempty]
  · intro m ap tokenResponse now hempty
    unfold CacheTokenResponse
    dsimp only
    rw [if_pos hempty]

/-- Witness for C3: with the home-account id empty, the concrete read and
write calls each return the missing-cache-key error with an empty call
trace. -/
theorem missing_key_guard_witness :
    TryReadCache emptyStorage sampleResolver
        { sampleAuthParameters with HomeaccountID := "" } 0 =
      (.error "Skipping the tokens cache lookup, one of the primary keys is empty",
       [], { sampleAuthParameters with HomeaccountID := "" }) ∧
    CacheTokenResponse emptyStorage sampleAuthParameters
        { sampleTokenResponse with HomeAccountIDFromClientInfo := "" } 0 =
      (.error "Skipping writing data to the tokens cache, one of the primary keys is empty",
       [], { sampleAuthParameters with HomeaccountID := "" }) :=
  ⟨missing_key_guard.1 emptyStorage sampleResolver
      { sampleAuthParameters with HomeaccountID := "" } 0 ⟨["env"]⟩ rfl (Or.inl rfl),
   missing_key_guard.2 emptyStorage sampleAuthParameters
      { sampleTokenResponse with HomeAccountIDFromClientInfo := "" } 0 (Or.inl rfl)⟩

/-- CLAIM C8: on the read path, once alias resolution succeeds and the
primary keys are non-empty, `TryReadCache` always returns a result (never
an error, whatever the storage port returns for any of the four entities);
an access token found in storage but judged invalid by the validity
evaluator is carried as `none`, exactly as if it had not been found, while
a found valid one is carried as `some`. -/
theorem TryReadCache_absent_ok (m : IStorageManager)
    (gme : AuthorityInfo → Except String MetadataEntry)
    (ap : AuthParametersInternal) (now : Int) (md : MetadataEntry)
    (hmd : gme ap.AuthorityInfo = Except.ok md)
    (hkeys : ¬(ap.HomeaccountID = "" ∨ md.Aliases.length = 0 ∨
      ap.AuthorityInfo.UserRealmURIPrefix = "" ∨ ap.ClientID = "" ∨
      ap.Scopes.length = 0)) :
    ∃ r, (TryReadCache m gme ap now).1 = Except.ok r ∧
      (∀ tok, m.ReadAccessToken ap.HomeaccountID md.Aliases
          ap.AuthorityInfo.UserRealmURIPrefix ap.ClientID ap.Scopes = some tok →
        isAccessTokenValid now tok = false → r.accessToken = none) ∧
      (m.ReadAccessToken ap.HomeaccountID md.Aliases
          ap.AuthorityInfo.UserRealmURIPrefix ap.ClientID ap.Scopes = none →
        r.accessToken = none) ∧
      (∀ tok, m.ReadAccessToken ap.HomeaccountID md.Aliases
          ap.AuthorityInfo.UserRealmURIPrefix ap.ClientID ap.Scopes = some tok →
        isAccessTokenValid now tok = true → r.accessToken = some tok) := by
  unfold TryReadCache
  rw [hmd]
  dsimp only
  rw [if_neg hkeys]
  refine ⟨_, rfl, ?_, ?_, ?_⟩
  · intro tok htok hinvalid
    dsimp [CreateStorageTokenResponse]
    rw [htok]
    simp [hinvalid]
  · intro htok
    dsimp [CreateStorageTokenResponse]
    rw [htok]
  · intro tok htok hvalid
    dsimp [CreateStorageTokenResponse]
    rw [htok]
    simp [hvalid]

/-- Witness for C8: on a storage port holding only a stale access token,
the concrete read succeeds and carries no access token. -/
theorem TryReadCache_absent_ok_witness :
    ∃ r, (TryReadCache expiredTokenStorage sampleResolver sampleAuthParameters 1000).1 =
        Except.ok r ∧ r.accessToken = none := by
  obtain ⟨r, hok, hinvalid, -, -⟩ :=
    TryReadCache_absent_ok expiredTokenStorage sampleResolver sampleAuthParameters 1000
      ⟨["env"]⟩ rfl (by decide)
  exact ⟨r, hok, hinvalid expiredToken rfl (by decide)⟩

/-- CLAIM C4: on the read path the refresh-token read is keyed by the
family id obtained from the preceding app-metadata read (empty when app
metadata is absent); concretely, a refresh token written under family `F`
by sibling client `B` is returned when resolving for client `A`, whose app
metadata maps it to family `F`. -/
theorem refreshToken_family_precedence :
    (∀ (m : IStorageManager) (gme : AuthorityInfo → Except String MetadataEntry)
       (ap : AuthParametersInternal) (now : Int) (md : MetadataEntry),
       gme ap.AuthorityInfo = Except.ok md →
       ¬(ap.HomeaccountID = "" ∨ md.Aliases.length = 0 ∨
         ap.AuthorityInfo.UserRealmURIPrefix = "" ∨ ap.ClientID = "" ∨
         ap.Scopes.length = 0) →
       ∃ r, (TryReadCache m gme ap now).1 = Except.ok r ∧
         r.refreshToken = m.ReadRefreshToken ap.HomeaccountID md.Aliases
           (match m.ReadAppMetadata md.Aliases ap.ClientID with
            | none => ""
            | some appMetadata => appMetadata.FamilyID) ap.ClientID) ∧
    (TryReadCache familyStorage sampleResolver sampleAuthParameters 0).1 =
      Except.ok (CreateStorageTokenResponse none (some familyRefreshToken) none none) := by
  constructor
  · intro m gme ap now md hmd hkeys
    unfold TryReadCache
    rw [hmd]
    dsimp only
    rw [if_neg hkeys]
    exact ⟨_, rfl, rfl⟩
  · rfl

/-- Witness for C4: applying the general key rule to the concrete populated
storage port returns the family refresh token written by the sibling
client. -/
theorem refreshToken_family_precedence_witness :
    ∃ r, (TryReadCache familyStorage sampleResolver sampleAuthParameters 0).1 =
        Except.ok r ∧ r.refreshToken = some familyRefreshToken := by
  obtain ⟨r, hok, hrt⟩ :=
    refreshToken_family_precedence.1 familyStorage sampleResolver sampleAuthParameters 0
      ⟨["env"]⟩ rfl (by decide)
  exact ⟨r, hok, by rw [hrt]; rfl⟩

/-- CLAIM C2 (failing-input evaluation): on a storage port whose
`WriteIDToken` fails while every other write succeeds, `CacheTokenResponse`
does not abort: the failing write's error is dropped (the source discards
the `WriteIDToken` return value, and the `if err != nil` that follows tests
a variable that is always nil there), the account and app-metadata writes
still happen, and the call returns the account with no error. -/
theorem CacheTokenResponse_ignores_idtoken_write_error :
    idTokenFailStorage.WriteIDToken (CreateIDTokenCacheItem "h" "env" "realm" "A" "raw") =
      some "id token write failed" ∧
    CacheTokenResponse idTokenFailStorage sampleAuthParameters sampleTokenResponse 0 =
      (Except.ok (CreateAccount "h" "env" "realm" "local" "MSSTS" "user"),
       [.writeIDToken (CreateIDTokenCacheItem "h" "env" "realm" "A" "raw"),
        .writeAccount (CreateAccount "h" "env" "realm" "local" "MSSTS" "user"),
        .writeAppMetadata (CreateAppMetadata "" "A" "env")],
       { sampleAuthParameters with HomeaccountID := "h" }) := by
  constructor <;> rfl

/-- CLAIM C9: the write path never persists an invalid access token: every
`WriteAccessToken` call performed by `CacheTokenResponse` carries an item
with cached-at = now that the validity evaluator accepts at `now` (hence no
future or unparsable cached-at and no expiry at or below now + 300); and
when the constructed item is invalid the write is silently skipped — the
whole run (result, storage calls, post-state) is identical to one whose
token response carries no access token at all: no error is produced and
all remaining entity writes still happen. -/
theorem CacheTokenResponse_writes_only_valid :
    (∀ (m : IStorageManager) (ap : AuthParametersInternal)
       (tokenResponse : TokenResponse) (now : Int) (a : accessTokenCacheItem),
       StorageCall.writeAccessToken a ∈ (CacheTokenResponse m ap tokenResponse now).2.1 →
       isAccessTokenValid now a = true ∧ a.CachedAt = TimeString.num now) ∧
    (∀ (m : IStorageManager) (ap : AuthParametersInternal)
       (tokenResponse : TokenResponse) (now : Int),
       isAccessTokenValid now (CreateAccessTokenCacheItem
           tokenResponse.GetHomeAccountIDFromClientInfo ap.AuthorityInfo.Host
           ap.AuthorityInfo.UserRealmURIPrefix ap.ClientID now tokenResponse.ExpiresOn
           tokenResponse.ExtExpiresOn (ConcatenateScopes tokenResponse.GrantedScopes)
           tokenResponse.AccessToken) = false →
       CacheTokenResponse m ap tokenResponse now =
         CacheTokenResponse m ap { tokenResponse with AccessToken := "" } now) := by
  constructor
  · intro m ap tokenResponse now a hmem
    unfold CacheTokenResponse at hmem
    dsimp only at hmem
    by_cases hguard : (tokenResponse.GetHomeAccountIDFromClientInfo = "" ∨
        ap.AuthorityInfo.Host = "" ∨ ap.AuthorityInfo.UserRealmURIPrefix = "" ∨
        ap.ClientID = "" ∨ ConcatenateScopes tokenResponse.GrantedScopes = "")
    · rw [if_pos hguard] at hmem
      simp at hmem
    · rw [if_neg hguard] at hmem
      set rt := CreateRefreshTokenCacheItem tokenResponse.GetHomeAccountIDFromClientInfo
        ap.AuthorityInfo.Host ap.ClientID tokenResponse.RefreshToken tokenResponse.FamilyID
        with hrtdef
      set item := CreateAccessTokenCacheItem tokenResponse.GetHomeAccountIDFromClientInfo
        ap.AuthorityInfo.Host ap.AuthorityInfo.UserRealmURIPrefix ap.ClientID now
        tokenResponse.ExpiresOn tokenResponse.ExtExpiresOn
        (ConcatenateScopes tokenResponse.GrantedScopes) tokenResponse.AccessToken with hitemdef
      by_cases hrt : tokenResponse.HasRefreshToken = true
      · rw [if_pos hrt] at hmem
        rcases hwrt : m.WriteRefreshToken rt with _ | e
        · rw [hwrt] at hmem
          dsimp only at hmem
          by_cases hat : tokenResponse.HasAccessToken = true
          · rw [if_pos hat] at hmem
            by_cases hval : isAccessTokenValid now item = true
            · rw [if_pos hval] at hmem
              rcases hwat : m.WriteAccessToken item with _ | e2
              · rw [hwat] at hmem
                dsimp only at hmem
                repeat' split at hmem
                all_goals simp at hmem
                all_goals subst hmem
                all_goals exact ⟨hval, by rw [hitemdef] ; rfl⟩
              · rw [hwat] at hmem
                dsimp only at hmem
                simp at hmem
                subst hmem
                exact ⟨hval, by rw [hitemdef] ; rfl⟩
            · rw [if_neg hval] at hmem
              dsimp only at hmem
              repeat' split at hmem
              all_goals simp at hmem
          · rw [if_neg hat] at hmem
            dsimp only at hmem
            repeat' split at hmem
            all_goals simp at hmem
        · rw [hwrt] at hmem
          dsimp only at hmem
          simp at hmem
      · rw [if_neg hrt] at hmem
        dsimp only at hmem
        by_cases hat : tokenResponse.HasAccessToken = true
        · rw [if_pos hat] at hmem
          by_cases hval : isAccessTokenValid now item = true
          · rw [if_pos hval] at hmem
            rcases hwat : m.WriteAccessToken item with _ | e2
            · rw [hwat] at hmem
              dsimp only at hmem
              repeat' split at hmem
              all_goals simp at hmem
              all_goals subst hmem
              all_goals exact ⟨hval, by rw [hitemdef] ; rfl⟩
            · rw [hwat] at hmem
              dsimp only at hmem
              simp at hmem
              subst hmem
              exact ⟨hval, by rw [hitemdef] ; rfl⟩
          · rw [if_neg hval] at hmem
            dsimp only at hmem
            repeat' split at hmem
            all_goals simp at hmem
        · rw [if_neg hat] at hmem
          dsimp only at hmem
          repeat' split at hmem
          all_goals simp at hmem
  · intro m ap tokenResponse now hinvalid
    by_cases hAT : tokenResponse.AccessToken = ""
    · have hid : { tokenResponse with AccessToken := "" } = tokenResponse := by
        cases tokenResponse
        simp_all
      rw [hid]
    · unfold CacheTokenResponse
      dsimp only [TokenResponse.GetHomeAccountIDFromClientInfo, TokenResponse.HasRefreshToken,
        TokenResponse.HasAccessToken] at hinvalid ⊢
      simp [hinvalid]

/-- Witness for C9: the concrete write of a token expiring at 1000 performed
at now = 0 is valid, and at now = 2000 the same response is processed
exactly like one with no access token. -/
theorem CacheTokenResponse_writes_only_valid_witness :
    isAccessTokenValid 0 (CreateAccessTokenCacheItem "h" "env" "realm" "A" 0 1000 1000 "s1"
      "at-secret") = true ∧
    CacheTokenResponse emptyStorage sampleAuthParameters accessTokenResponse 2000 =
      CacheTokenResponse emptyStorage sampleAuthParameters
        { accessTokenResponse with AccessToken := "" } 2000 :=
  ⟨(CacheTokenResponse_writes_only_valid.1 emptyStorage sampleAuthParameters
      accessTokenResponse 0
      (CreateAccessTokenCacheItem "h" "env" "realm" "A" 0 1000 1000 "s1" "at-secret")
      (by decide)).1,
   CacheTokenResponse_writes_only_valid.2 emptyStorage sampleAuthParameters
      accessTokenResponse 2000 (by decide)⟩
